import Mathlib

/-!
Verification of the threshold-evaluation engine of check_rds_mysql.py.

The Python source is shallowly embedded: Python strings are Lean `String`
values (worked on through their `List Char` data), Python floats are
modelled as `ℚ` (all numeric literals and comparisons in the program stay
in the exactly-representable decimal range, where IEEE double comparison
agrees with rational comparison), Python ints as `ℤ`/`ℕ`, and a raised
Python exception as the `none` of an `Option` result (or the `crash`
outcome for a whole-process model).  The numeric parsing done by the
builtins float() and int() is modelled on the plain decimal fragment
(optional sign, ASCII digits, one optional decimal point; no exponents,
no inf/nan, no underscores, no surrounding whitespace) - every literal
the program is exercised on in this development lies in that fragment.

The three pySplit lemmas appear among the definitions because the
termination argument of expand_unit depends on them.
-/

namespace RDS

/-- Exit/state code STATE_OK = 0 (line 18 of the source). -/
def STATE_OK : ℕ := 0

/-- Exit/state code STATE_WARN = 1 (line 19). -/
def STATE_WARN : ℕ := 1

/-- Exit/state code STATE_CRIT = 2 (line 20). -/
def STATE_CRIT : ℕ := 2

/-- Exit/state code STATE_UNKNOWN = 3 (line 21). -/
def STATE_UNKNOWN : ℕ := 3

/-- Python str.split(sep) for a one-character separator:
"".split(c) = [""], and every occurrence of the separator starts a new
(possibly empty) part. -/
def pySplit (c : Char) : List Char → List (List Char)
  | [] => [[]]
  | a :: rest =>
    if a = c then [] :: pySplit c rest
    else
      match pySplit c rest with
      | p :: ps => (a :: p) :: ps
      | [] => [[a]]

/-- str.split never returns an empty list of parts. -/
theorem pySplit_ne_nil (c : Char) (l : List Char) : pySplit c l ≠ [] := by
  cases l with
  | nil => simp [pySplit]
  | cons a rest =>
    simp only [pySplit]
    by_cases h : a = c
    · simp [h]
    · cases hr : pySplit c rest with
      | nil => simp [h, hr]
      | cons q qs => simp [h, hr]

/-- Each part produced by str.split is no longer than the input. -/
theorem pySplit_length_le (c : Char) (l : List Char) :
    ∀ p ∈ pySplit c l, p.length ≤ l.length := by
  induction l with
  | nil =>
    intro p hp
    simp [pySplit] at hp
    simp [hp]
  | cons a rest ih =>
    intro p hp
    simp only [pySplit] at hp
    by_cases h : a = c
    · rw [if_pos h] at hp
      rcases List.mem_cons.mp hp with hp | hp
      · simp [hp]
      · exact Nat.le_succ_of_le (ih p hp)
    · rw [if_neg h] at hp
      cases hr : pySplit c rest with
      | nil =>
        rw [hr] at hp
        simp at hp
        simp [hp]
      | cons q qs =>
        rw [hr] at hp
        rcases List.mem_cons.mp hp with hp | hp
        · subst hp
          simp only [List.length_cons, Nat.succ_le_succ_iff]
          exact ih q (by rw [hr]; exact List.mem_cons_self q qs)
        · exact Nat.le_succ_of_le (ih p (by rw [hr]; exact List.mem_cons_of_mem q hp))

/-- When the separator occurs in the input, every part of str.split is
strictly shorter than the input (at least the separator is dropped). -/
theorem pySplit_mem_length_lt {c : Char} : ∀ {l : List Char}, c ∈ l →
    ∀ p ∈ pySplit c l, p.length < l.length := by
  intro l
  induction l with
  | nil => intro hc; cases hc
  | cons a rest ih =>
    intro hc p hp
    simp only [pySplit] at hp
    by_cases h : a = c
    · rw [if_pos h] at hp
      rcases List.mem_cons.mp hp with hp | hp
      · simp [hp]
      · exact Nat.lt_succ_of_le (pySplit_length_le c rest p hp)
    · have hcr : c ∈ rest := by
        rcases List.mem_cons.mp hc with h1 | h1
        · exact absurd h1.symm h
        · exact h1
      rw [if_neg h] at hp
      cases hr : pySplit c rest with
      | nil => exact absurd hr (pySplit_ne_nil c rest)
      | cons q qs =>
        rw [hr] at hp
        rcases List.mem_cons.mp hp with hp | hp
        · subst hp
          simp only [List.length_cons, Nat.succ_lt_succ_iff]
          exact ih hcr q (by rw [hr]; exact List.mem_cons_self q qs)
        · exact Nat.lt_succ_of_lt (ih hcr p (by rw [hr]; exact List.mem_cons_of_mem q hp))

/-- All characters are ASCII digits. -/
def allDigits (l : List Char) : Bool := l.all Char.isDigit

/-- Numeric value of a list of ASCII digits. -/
def digitsVal (l : List Char) : ℕ := l.foldl (fun a c => a * 10 + (c.toNat - 48)) 0

/-- Python int(s) on the plain decimal fragment: optional sign then a
nonempty run of digits; anything else raises ValueError (none). -/
def pyInt (l : List Char) : Option ℤ :=
  match l with
  | '-' :: r => if r ≠ [] ∧ allDigits r then some (-(digitsVal r : ℤ)) else none
  | '+' :: r => if r ≠ [] ∧ allDigits r then some ((digitsVal r : ℤ)) else none
  | r => if r ≠ [] ∧ allDigits r then some ((digitsVal r : ℤ)) else none

/-- Unsigned part of Python float(s) on the plain decimal fragment:
digits with at most one decimal point and at least one digit. -/
def pyFloatBody (l : List Char) : Option ℚ :=
  match pySplit '.' l with
  | [ip] => if ip ≠ [] ∧ allDigits ip then some ((digitsVal ip : ℚ)) else none
  | [ip, fp] =>
    if (ip ≠ [] ∨ fp ≠ []) ∧ allDigits ip ∧ allDigits fp then
      some ((digitsVal ip : ℚ) + (digitsVal fp : ℚ) / ((10 : ℚ) ^ fp.length))
    else none
  | _ => none

/-- Python float(s) on the plain decimal fragment (see file header);
none models a raised ValueError. -/
def pyFloat (l : List Char) : Option ℚ :=
  match l with
  | '-' :: r => (pyFloatBody r).map (fun q => -q)
  | '+' :: r => pyFloatBody r
  | _ => pyFloatBody l

/-- The two boundary comparisons of compare_range (source lines 215-220):
start/stop of none mean the tilde sentinel (no bound); incl is the
at-prefix flag. -/
def rangeTest (value : ℚ) (incl : Bool) (start stop : Option ℚ) : Bool :=
  if (match start with
      | some s => (incl && decide (value ≤ s)) || (!incl && decide (value < s))
      | none => false) then false
  else if (match stop with
      | some t => (incl && decide (t ≤ value)) || (!incl && decide (t < value))
      | none => false) then false
  else true

/-- compare_range(value, window) (source lines 193-220).  Result none
models a raised exception: IndexError on the empty window string
(window[0]), or ValueError from float() on a non-numeric bound.  In the
branch without a colon the source sets start to the Python int 0, whose
float() conversion is exactly 0. -/
def compare_range (value : ℚ) (window : String) : Option Bool :=
  match window.data with
  | [] => none
  | c :: rest =>
    let incl : Bool := c = '@'
    let w : List Char := if c = '@' then rest else window.data
    if ':' ∈ w then
      let bits := pySplit ':' w
      let startTok := bits.getD 0 []
      let stopTok0 := bits.getD 1 []
      let stopTok := if stopTok0 = [] then ['~'] else stopTok0
      match (if startTok = ['~'] then some none else (pyFloat startTok).map some) with
      | none => none
      | some startV =>
        match (if stopTok = ['~'] then some none else (pyFloat stopTok).map some) with
        | none => none
        | some stopV => some (rangeTest value incl startV stopV)
    else
      match (if w = ['~'] then some none else (pyFloat w).map some) with
      | none => none
      | some stopV => some (rangeTest value incl (some 0) stopV)

/-- compare(value, warn, crit) (source lines 223-235): the critical range
is tested first; a raised exception (none) propagates. -/
def compare (value : ℚ) (warn crit : String) : Option ℕ :=
  match compare_range value crit with
  | none => none
  | some false => some STATE_CRIT
  | some true =>
    match compare_range value warn with
    | none => none
    | some false => some STATE_WARN
    | some true => some STATE_OK

/-- A Python value that is either a str or an int: expand_unit returns
a str for inputs containing a colon or matching no suffix, and an int
(the multiplied prefix) for suffixed inputs. -/
inductive PyVal where
  | str (s : String)
  | num (n : ℤ)
  deriving DecidableEq

/-- Python str() applied to an expand_unit result (used inside the
colon-join of expand_unit). -/
def pyStr : PyVal → String
  | PyVal.str s => s
  | PyVal.num n => toString n

/-- Sequence a list of possibly-raising computations: the generator
inside the join of expand_unit propagates the first raised exception. -/
def seqOption {α : Type} : List (Option α) → Option (List α)
  | [] => some []
  | none :: _ => none
  | some a :: rest => (seqOption rest).map (fun l => a :: l)

/-- expand_unit(value) (source lines 303-323).  A none result models a
raised ValueError from int() on a non-integer prefix.  The suffix tests
are Python str.endswith in source order (K, Ki, M, Mi, G, Gi); value[:-1]
and value[:-2] are dropLast.  On a colon the parts are expanded
recursively and rejoined with str() and the colon join. -/
def expand_unit (value : String) : Option PyVal :=
  if h : ':' ∈ value.data then
    match seqOption ((pySplit ':' value.data).attach.map
        (fun p => expand_unit (String.mk p.1))) with
    | none => none
    | some parts => some (PyVal.str (String.intercalate ":" (parts.map pyStr)))
  else if List.isSuffixOf ['K'] value.data then
    (pyInt value.data.dropLast).map (fun n => PyVal.num (n * 1000))
  else if List.isSuffixOf ['K', 'i'] value.data then
    (pyInt value.data.dropLast.dropLast).map (fun n => PyVal.num (n * 1024))
  else if List.isSuffixOf ['M'] value.data then
    (pyInt value.data.dropLast).map (fun n => PyVal.num (n * 1000000))
  else if List.isSuffixOf ['M', 'i'] value.data then
    (pyInt value.data.dropLast.dropLast).map (fun n => PyVal.num (n * 1048576))
  else if List.isSuffixOf ['G'] value.data then
    (pyInt value.data.dropLast).map (fun n => PyVal.num (n * 1000000000))
  else if List.isSuffixOf ['G', 'i'] value.data then
    (pyInt value.data.dropLast.dropLast).map (fun n => PyVal.num (n * 1073741824))
  else some (PyVal.str value)
termination_by value.data.length
decreasing_by
  exact pySplit_mem_length_lt h p.1 p.2

/-- compare_range applied to a dynamically-typed Python threshold, as in
the disk branch of main where compare receives expand_unit results: on a
str it is compare_range; on an int its very first step window[0]
(subscripting) raises TypeError, modelled as none. -/
def compare_rangeDyn (value : ℚ) (window : PyVal) : Option Bool :=
  match window with
  | PyVal.str s => compare_range value s
  | PyVal.num _ => none

/-- compare with dynamically-typed thresholds, as called on the disk
metric (source lines 367-368): critical tested first, exceptions
propagate. -/
def compareDyn (value : ℚ) (warn crit : PyVal) : Option ℕ :=
  match compare_rangeDyn value crit with
  | none => none
  | some false => some STATE_CRIT
  | some true =>
    match compare_rangeDyn value warn with
    | none => none
    | some false => some STATE_WARN
    | some true => some STATE_OK

/-- Outcome of a piece of the program seen from the process level:
a normal return, a sys.exit(STATE_UNKNOWN) carrying the printed
diagnostic line (the caught-BotoCoreError path of get_statistics), or an
uncaught Python exception terminating the process with a traceback. -/
inductive Outcome (α : Type) where
  | ok (a : α)
  | exitUnknown (diag : String)
  | crash
  deriving DecidableEq

/-- The external metric source (spec section 6): for each window offset it
either raises a transport error (BotoCoreError/ClientError, carrying the
error text) or returns the series of datapoints; each datapoint is
modelled by the value of the requested statistic, in query order, so
Datapoints[-1] is the last list element. -/
def MetricSource : Type := ℕ → Except String (List ℚ)

/-- Metric.get_statistics(metric, offset) (source lines 134-162).
Returns Python None (ok none) once the offset exceeds 20; a transport
error prints "UNKNOWN - err" and exits STATE_UNKNOWN; an empty series
with last_state set recurses with offset + 1; otherwise the statistics
(ok (some dps)) are returned. -/
def get_statistics (src : MetricSource) (lastState : Bool) (offset : ℕ) :
    Outcome (Option (List ℚ)) :=
  if _h : offset > 20 then Outcome.ok none
  else
    match src offset with
    | Except.error err => Outcome.exitUnknown ("UNKNOWN - " ++ err)
    | Except.ok dps =>
      if dps = [] ∧ lastState then get_statistics src lastState (offset + 1)
      else Outcome.ok (some dps)
termination_by 21 - offset
decreasing_by omega

/-- Metric.get_current_value() (source lines 164-173).  When
get_statistics has returned Python None (retry budget exhausted), the
subscript None[...] raises TypeError: crash.  An empty series yields the
absent sample (ok none); otherwise the statistic of the last datapoint. -/
def get_current_value (src : MetricSource) (lastState : Bool) : Outcome (Option ℚ) :=
  match get_statistics src lastState 0 with
  | Outcome.exitUnknown d => Outcome.exitUnknown d
  | Outcome.crash => Outcome.crash
  | Outcome.ok none => Outcome.crash
  | Outcome.ok (some dps) =>
    if dps = [] then Outcome.ok none
    else
      match dps.getLast? with
      | some d => Outcome.ok (some d)
      | none => Outcome.crash

/-- The instance metadata returned by the collaborator behind DbInstance
(spec section 6): the resolved max_connections value and the
AllocatedStorage figure (GiB).  The boto3 calls of DbInstance.__init__
are not wrapped in any try block, so a transport error there is an
uncaught exception: the Except.error case crashes the callers below. -/
structure DbMeta where
  max_connections : ℤ
  allocatedStorage : ℤ
  deriving DecidableEq

/-- DbInstance.storage (source lines 84-86). -/
def DbMeta.storage (m : DbMeta) : ℤ := m.allocatedStorage * 1024 * 1024 * 1024

/-- unused_connections(args) (source lines 238-258).  DbInstance is
constructed first (metadata network call; error = uncaught crash), then
the DatabaseConnections metric is sampled; the subtraction
max_connections - value raises TypeError when the sample is None. -/
def unused_connections (meta : Except String DbMeta) (src : MetricSource)
    (lastState percent : Bool) : Outcome (Option ℚ) :=
  match meta with
  | Except.error _ => Outcome.crash
  | Except.ok inst =>
    match get_current_value src lastState with
    | Outcome.exitUnknown d => Outcome.exitUnknown d
    | Outcome.crash => Outcome.crash
    | Outcome.ok none => Outcome.crash
    | Outcome.ok (some v) =>
      let value : ℚ := (inst.max_connections : ℚ) - v
      Outcome.ok (some (if percent then value / (inst.max_connections : ℚ) * 100 else value))

/-- free_storage(args) (source lines 261-281).  DbInstance is constructed
first; with percent set, value / instance.storage raises TypeError when
the sample is None, otherwise None is returned as-is. -/
def free_storage (meta : Except String DbMeta) (src : MetricSource)
    (lastState percent : Bool) : Outcome (Option ℚ) :=
  match meta with
  | Except.error _ => Outcome.crash
  | Except.ok inst =>
    match get_current_value src lastState with
    | Outcome.exitUnknown d => Outcome.exitUnknown d
    | Outcome.crash => Outcome.crash
    | Outcome.ok none => if percent then Outcome.crash else Outcome.ok none
    | Outcome.ok (some v) =>
      Outcome.ok (some (if percent then v / (inst.storage : ℚ) * 100 else v))

/-- cpu_used(args) (source lines 284-300): no DbInstance, no percent
handling; the sampled value (possibly None) is returned directly. -/
def cpu_used (src : MetricSource) (lastState : Bool) : Outcome (Option ℚ) :=
  get_current_value src lastState

/-- One entry of the states list built in main (source lines 357-378). -/
structure Item where
  name : String
  state : ℕ
  value : Option ℚ
  unit : String
  deriving DecidableEq

/-- The per-metric state expression of main (lines 359, 367, 375):
STATE_UNKNOWN if value is None else compare(value, warn, crit); the
compare call can itself raise (none). -/
def evalState (value : Option ℚ) (warn crit : String) : Option ℕ :=
  match value with
  | none => some STATE_UNKNOWN
  | some v => compare v warn crit

/-- The disk state expression of main (lines 367-368): the thresholds go
through expand_unit first (only evaluated when the value is not None);
an expand_unit ValueError or a TypeError from compare on an int
threshold propagates (none). -/
def evalStateDisk (value : Option ℚ) (warnDisk critDisk : String) : Option ℕ :=
  match value with
  | none => some STATE_UNKNOWN
  | some v =>
    match expand_unit warnDisk with
    | none => none
    | some w =>
      match expand_unit critDisk with
      | none => none
      | some c => compareDyn v w c

/-- The storage item value expression of main (line 369):
value if args.percent else value / 1024 / 1024 - dividing None by 1024
raises TypeError (none). -/
def storageItemValue (value : Option ℚ) (percent : Bool) : Option (Option ℚ) :=
  if percent then some value
  else
    match value with
    | none => none
    | some v => some (some (v / 1024 / 1024))

/-- Overall state aggregation of main (source lines 380-391): the list
comprehensions filter by state and Python truthiness tests non-emptiness;
CRITICAL dominates, then WARNING, then UNKNOWN, else OK. -/
def finalState (states : List Item) : ℕ :=
  if (states.filter (fun i => i.state = STATE_CRIT)).isEmpty = false then STATE_CRIT
  else if (states.filter (fun i => i.state = STATE_WARN)).isEmpty = false then STATE_WARN
  else if (states.filter (fun i => i.state = STATE_UNKNOWN)).isEmpty = false then STATE_UNKNOWN
  else STATE_OK

/-- The severity label chosen alongside finalState (lines 382-391). -/
def finalLabel (states : List Item) : String :=
  if (states.filter (fun i => i.state = STATE_CRIT)).isEmpty = false then "CRITICAL:"
  else if (states.filter (fun i => i.state = STATE_WARN)).isEmpty = false then "WARNING:"
  else if (states.filter (fun i => i.state = STATE_UNKNOWN)).isEmpty = false then "UNKNOWN:"
  else "OK:"

/-- Rendering of one item in the summary line (line 395):
name:value<unit>.  The str() of the numeric value is abstracted by the
rational toString (no claim depends on the printed digits). -/
def itemText (i : Item) : String :=
  i.name ++ ":" ++ (match i.value with
    | none => "None"
    | some q => toString q) ++ i.unit

/-- The pieces joined by ", " in the summary line, in list order (the
generator inside the join at lines 395-396). -/
def summaryItems (states : List Item) : List String := states.map itemText

/-- The joined summary text (lines 393-397). -/
def summaryText (states : List Item) : String :=
  String.intercalate ", " (summaryItems states)

/-- The command-line arguments consumed by main (source lines 336-352). -/
structure Args where
  warn_cpu : String
  crit_cpu : String
  warn_conns : String
  crit_conns : String
  warn_disk : String
  crit_disk : String
  percent : Bool
  last_state : Bool
  deriving DecidableEq

/-- The external collaborators of one run: the metadata provider and one
metric source per sampled metric. -/
structure Env where
  meta : Except String DbMeta
  srcConn : MetricSource
  srcStor : MetricSource
  srcCpu : MetricSource

/-- Network-activity events of one run, in order: the sampling (metadata
plus metric queries) performed by each gather function. -/
inductive Ev where
  | conns
  | storage
  | cpu
  deriving DecidableEq

/-- Process outcome of main: exit with a status code and the printed
summary line, or termination by an uncaught exception. -/
inductive MainOut where
  | exited (code : ℕ) (line : String)
  | crash
  deriving DecidableEq

/-- main() after argument parsing (source lines 352-398), paired with the
trace of network-sampling events: gathers free_connections, free_storage
and cpu_used in that order, evaluating each metric state (and the disk
threshold expansion) right after the corresponding sampling, then
aggregates.  A sys.exit inside get_statistics propagates (exited
STATE_UNKNOWN with the diagnostic); an uncaught exception crashes. -/
def main (args : Args) (env : Env) : List Ev × MainOut :=
  match unused_connections env.meta env.srcConn args.last_state args.percent with
  | Outcome.crash => ([Ev.conns], MainOut.crash)
  | Outcome.exitUnknown d => ([Ev.conns], MainOut.exited STATE_UNKNOWN d)
  | Outcome.ok value =>
    match evalState value args.warn_conns args.crit_conns with
    | none => ([Ev.conns], MainOut.crash)
    | some st1 =>
      let item1 : Item := ⟨"free_connections", st1, value, if args.percent then "%" else ""⟩
      match free_storage env.meta env.srcStor args.last_state args.percent with
      | Outcome.crash => ([Ev.conns, Ev.storage], MainOut.crash)
      | Outcome.exitUnknown d => ([Ev.conns, Ev.storage], MainOut.exited STATE_UNKNOWN d)
      | Outcome.ok value2 =>
        match evalStateDisk value2 args.warn_disk args.crit_disk with
        | none => ([Ev.conns, Ev.storage], MainOut.crash)
        | some st2 =>
          match storageItemValue value2 args.percent with
          | none => ([Ev.conns, Ev.storage], MainOut.crash)
          | some v2 =>
            let item2 : Item := ⟨"free_storage", st2, v2, if args.percent then "%" else " MiB"⟩
            match cpu_used env.srcCpu args.last_state with
            | Outcome.crash => ([Ev.conns, Ev.storage, Ev.cpu], MainOut.crash)
            | Outcome.exitUnknown d =>
              ([Ev.conns, Ev.storage, Ev.cpu], MainOut.exited STATE_UNKNOWN d)
            | Outcome.ok value3 =>
              match evalState value3 args.warn_cpu args.crit_cpu with
              | none => ([Ev.conns, Ev.storage, Ev.cpu], MainOut.crash)
              | some st3 =>
                let item3 : Item := ⟨"cpu_used", st3, value3, "%"⟩
                let states := [item1, item2, item3]
                ([Ev.conns, Ev.storage, Ev.cpu],
                  MainOut.exited (finalState states)
                    (finalLabel states ++ " " ++ summaryText states))

/-- Rank of a state in the severity order CRITICAL over WARNING over
UNKNOWN over OK (spec section 4.4). -/
def sevRank (s : ℕ) : ℕ :=
  if s = STATE_CRIT then 3
  else if s = STATE_WARN then 2
  else if s = STATE_UNKNOWN then 1
  else 0

/-- The most severe state present in a list under sevRank, defaulting to
STATE_OK; the specification-side formulation of aggregation. -/
def mostSevere (l : List ℕ) : ℕ :=
  l.foldr (fun s acc => if sevRank acc < sevRank s then s else acc) STATE_OK

/-- Unfolding of expand_unit on an input containing a colon: split,
recursively expand every part, rejoin. -/
theorem expand_unit_colon (value : String) (h : ':' ∈ value.data) :
    expand_unit value =
      match seqOption ((pySplit ':' value.data).map (fun p => expand_unit (String.mk p))) with
      | none => none
      | some parts => some (PyVal.str (String.intercalate ":" (parts.map pyStr))) := by
  rw [expand_unit, dif_pos h,
    show ((pySplit ':' value.data).attach.map (fun p => expand_unit (String.mk p.1)))
        = (pySplit ':' value.data).map (fun p => expand_unit (String.mk p)) from
      List.attach_map_coe (pySplit ':' value.data) (fun p => expand_unit (String.mk p))]

/-- A suffix branch of expand_unit always produces an int (or raises). -/
theorem pyvalNumMap (c : ℤ) (o : Option ℤ) (r : PyVal)
    (h : o.map (fun n => PyVal.num (n * c)) = some r) : ∃ n : ℤ, r = PyVal.num n := by
  cases o with
  | none => simp at h
  | some m =>
    simp only [Option.map_some', Option.some.injEq] at h
    exact ⟨m * c, h.symm⟩

/-- The boundary test without the at-prefix is inclusive on both finite
bounds. -/
theorem rangeTest_noincl (v a b : ℚ) :
    rangeTest v false (some a) (some b) = (decide (a ≤ v) && decide (v ≤ b)) := by
  simp only [rangeTest, Bool.false_and, Bool.not_false, Bool.true_and, Bool.false_or]
  by_cases h1 : v < a
  · simp [h1, show ¬ a ≤ v by linarith]
  · by_cases h2 : a < v <;> by_cases h3 : v ≤ b <;> simp_all

/-- The boundary test with the at-prefix is exclusive on both finite
bounds. -/
theorem rangeTest_incl (v a b : ℚ) :
    rangeTest v true (some a) (some b) = (decide (a < v) && decide (v < b)) := by
  simp only [rangeTest, Bool.true_and, Bool.not_true, Bool.false_and, Bool.or_false]
  by_cases h1 : v ≤ a
  · simp [h1, show ¬ a < v by linarith]
  · by_cases h2 : b ≤ v <;> simp_all

set_option maxHeartbeats 1000000 in
/-- mostSevere picks CRITICAL when present, else WARNING, else UNKNOWN,
else OK. -/
theorem mostSevere_eq (l : List ℕ) :
    mostSevere l =
      if l.any (fun s => s = STATE_CRIT) then STATE_CRIT
      else if l.any (fun s => s = STATE_WARN) then STATE_WARN
      else if l.any (fun s => s = STATE_UNKNOWN) then STATE_UNKNOWN
      else STATE_OK := by
  induction l with
  | nil => simp [mostSevere]
  | cons s l ih =>
    have step : mostSevere (s :: l)
        = if sevRank (mostSevere l) < sevRank s then s else mostSevere l := rfl
    rw [step, ih]
    simp only [List.any_cons]
    by_cases a2 : l.any (fun x => x = STATE_CRIT) <;>
    by_cases a1 : l.any (fun x => x = STATE_WARN) <;>
    by_cases a3 : l.any (fun x => x = STATE_UNKNOWN) <;>
    by_cases h2 : s = STATE_CRIT <;>
    by_cases h1 : s = STATE_WARN <;>
    by_cases h3 : s = STATE_UNKNOWN <;>
    simp_all [sevRank, STATE_OK, STATE_WARN, STATE_CRIT, STATE_UNKNOWN]

/-- Python truthiness of a filtered list agrees with an existence test. -/
theorem filter_state_any (states : List Item) (c : ℕ) :
    ((states.filter (fun i => i.state = c)).isEmpty = false)
      ↔ (states.any (fun i => i.state = c) = true) := by
  simp [List.isEmpty_iff, List.filter_eq_nil_iff, List.any_eq_true]

/-- finalState through existence tests instead of filters. -/
theorem finalState_any (states : List Item) :
    finalState states =
      if states.any (fun i => i.state = STATE_CRIT) then STATE_CRIT
      else if states.any (fun i => i.state = STATE_WARN) then STATE_WARN
      else if states.any (fun i => i.state = STATE_UNKNOWN) then STATE_UNKNOWN
      else STATE_OK := by
  simp only [finalState, filter_state_any]

/-- List.any is invariant under permutation. -/
theorem perm_any {s t : List Item} (h : s.Perm t) (p : Item → Bool) :
    s.any p = t.any p := by
  cases hs : s.any p <;> cases ht : t.any p <;> simp_all [List.any_eq_true, h.mem_iff]
  · obtain ⟨x, hx, hpx⟩ := ht
    have := hs x hx
    simp [hpx] at this
  · obtain ⟨x, hx, hpx⟩ := hs
    have := ht x hx
    simp [hpx] at this

/-- C1: with allowFallback (last_state) set, a source that is empty for
the first 19 calls (offsets 0..18) and has data on the 20th (offset 19)
makes the sampler return that data; but a source that is empty for all 21
allowed calls (offsets 0..20) does NOT produce an absent sample: once the
offset exceeds the 20-minute cap, get_statistics returns Python None and
get_current_value subscripts it, raising TypeError (an uncaught crash)
instead of returning absent. -/
theorem c1_sampler :
    (∀ d : ℚ, get_current_value (fun o => Except.ok (if o < 19 then [] else [d])) true
      = Outcome.ok (some d))
    ∧ get_current_value (fun _ => Except.ok []) true = Outcome.crash := by
  constructor
  · intro d
    simp [get_current_value, get_statistics]
  · simp [get_current_value, get_statistics]

/-- C2: the evaluator of main maps an absent sample to STATE_UNKNOWN
unconditionally, for every pair of threshold strings (however
permissive); but for the free_connections metric an absent sample never
reaches that evaluator: unused_connections raises TypeError on
max_connections - None, aborting the whole check (crash). -/
theorem c2_absent_unknown :
    (∀ warn crit : String, evalState none warn crit = some STATE_UNKNOWN)
    ∧ unused_connections (Except.ok ⟨100, 10⟩) (fun _ => Except.ok []) false false
      = Outcome.crash := by
  constructor
  · intro warn crit
    rfl
  · simp [unused_connections, get_current_value, get_statistics]

/-- C3: the containment test accepts v for the non-inverted range "10:20"
exactly when 10 ≤ v ≤ 20 (boundaries inclusive: 10 and 20 accepted,
9.999 and 20.001 rejected), and the at-inversion flips boundary
inclusivity: for "@10:20" acceptance is exactly 10 < v < 20, so 10 and
20 are rejected and 10.5 is accepted. -/
theorem c3_containment :
    (∀ v : ℚ, (compare_range v "10:20" = some true ↔ 10 ≤ v ∧ v ≤ 20)
      ∧ (compare_range v "@10:20" = some true ↔ 10 < v ∧ v < 20))
    ∧ compare_range 10 "10:20" = some true
    ∧ compare_range 20 "10:20" = some true
    ∧ compare_range (9999/1000 : ℚ) "10:20" = some false
    ∧ compare_range (20001/1000 : ℚ) "10:20" = some false
    ∧ compare_range 10 "@10:20" = some false
    ∧ compare_range 20 "@10:20" = some false
    ∧ compare_range (21/2 : ℚ) "@10:20" = some true := by
  have key : ∀ v : ℚ, compare_range v "10:20"
      = some (rangeTest v false (some 10) (some 20)) := fun v => rfl
  have keyAt : ∀ v : ℚ, compare_range v "@10:20"
      = some (rangeTest v true (some 10) (some 20)) := fun v => rfl
  refine ⟨fun v => ⟨?_, ?_⟩, ?_, ?_, ?_, ?_, ?_, ?_, ?_⟩ <;>
    simp only [key, keyAt, rangeTest_noincl, rangeTest_incl] <;> norm_num

/-- C4 counterexample: expand_unit("8Gi") is the Python int 8589934592,
not the numeric string "8589934592" as the claim states (in Python,
8589934592 == "8589934592" is False). -/
theorem c4_counter : expand_unit "8Gi" ≠ some (PyVal.str "8589934592") := by
  rw [show expand_unit "8Gi" = some (PyVal.num 8589934592) from by
    simp +decide [expand_unit, pyInt, allDigits, digitsVal]]
  simp

/-- C4 amended: unit expansion multiplies the numeric prefix by the
matched suffix factor and returns the product as a Python int (not a
string): expand_unit("8Gi") == 8589934592, expand_unit("1000Mi") ==
1048576000, expand_unit("2Ki") == 2048 (the Ki input is not captured by
the K rule, since a Ki-suffixed string does not end in the character K). -/
theorem c4_amended :
    expand_unit "8Gi" = some (PyVal.num 8589934592)
    ∧ expand_unit "1000Mi" = some (PyVal.num 1048576000)
    ∧ expand_unit "2Ki" = some (PyVal.num 2048) := by
  refine ⟨?_, ?_, ?_⟩ <;> simp +decide [expand_unit, pyInt, allDigits, digitsVal]

/-- C5 counterexample: expand_unit is not total: on input "K" the K rule
matches and int("") raises ValueError (modelled by none). -/
theorem c5_counter : expand_unit "K" = none := by
  simp +decide [expand_unit, pyInt, allDigits]

/-- C5 amended: expand_unit returns a result for every input whose
unit-suffixed tokens have integer-parseable prefixes: any token matching
no suffix (including plain numerics such as "42") is returned unchanged,
and colon inputs are split, recursively expanded and rejoined with empty
sides preserved; but a token with a recognized suffix and a non-integer
prefix (such as "xKi") raises ValueError, so it is not total. -/
theorem c5_amended :
    (∀ s : String, ':' ∉ s.data →
      List.isSuffixOf ['K'] s.data = false →
      List.isSuffixOf ['K', 'i'] s.data = false →
      List.isSuffixOf ['M'] s.data = false →
      List.isSuffixOf ['M', 'i'] s.data = false →
      List.isSuffixOf ['G'] s.data = false →
      List.isSuffixOf ['G', 'i'] s.data = false →
      expand_unit s = some (PyVal.str s))
    ∧ expand_unit "42" = some (PyVal.str "42")
    ∧ expand_unit "1000Mi:" = some (PyVal.str "1048576000:")
    ∧ expand_unit "xKi" = none := by
  refine ⟨fun s hc h1 h2 h3 h4 h5 h6 => ?_, ?_, ?_, ?_⟩
  · rw [expand_unit, dif_neg hc]
    simp only [h1, h2, h3, h4, h5, h6, Bool.false_eq_true, if_false]
  · simp +decide [expand_unit]
  · rw [expand_unit_colon _ (by decide),
      show pySplit ':' "1000Mi:".data = [['1', '0', '0', '0', 'M', 'i'], []] from rfl]
    simp only [List.map_cons, List.map_nil]
    rw [show expand_unit (String.mk ['1', '0', '0', '0', 'M', 'i'])
          = some (PyVal.num 1048576000) from by
        simp +decide [expand_unit, pyInt, allDigits, digitsVal],
      show expand_unit (String.mk []) = some (PyVal.str "") from by
        simp +decide [expand_unit]]
    simp +decide [seqOption, pyStr]
  · simp +decide [expand_unit, pyInt, allDigits]

/-- Witness for c5_amended: "abc" contains no colon and matches no
suffix, so it passes through unchanged. -/
theorem c5_witness : expand_unit "abc" = some (PyVal.str "abc") :=
  c5_amended.1 "abc" (by decide) (by decide) (by decide) (by decide) (by decide)
    (by decide) (by decide)

/-- C6 counterexample: with the malformed connections warning threshold
"abc" and metrics available, the check performs the free_connections
sampling (network activity, event Ev.conns) and only then crashes on the
parse failure with an uncaught exception - it neither fails before
network activity nor exits with UNKNOWN. -/
theorem c6_counter :
    main ⟨"0:100", "0:100", "abc", "0:100", "0:100", "0:100", false, false⟩
      ⟨Except.ok ⟨100, 10⟩, fun _ => Except.ok [50], fun _ => Except.ok [50],
        fun _ => Except.ok [50]⟩
      = ([Ev.conns], MainOut.crash) := by
  have h1 : unused_connections (Except.ok ⟨100, 10⟩) (fun _ => Except.ok [50]) false false
      = Outcome.ok (some 50) := by
    simp [unused_connections, get_current_value, get_statistics]
    norm_num
  simp [main, h1, evalState]
  decide

/-- C6 amended: a malformed threshold string is not detected before
sampling: whenever the free_connections sampling succeeds and the
connections threshold evaluation raises (compare = none), the run
consists of exactly the sampling event followed by a crash - an uncaught
parse exception after network activity, not an UNKNOWN exit before it. -/
theorem c6_amended :
    ∀ (args : Args) (env : Env) (v : ℚ),
      unused_connections env.meta env.srcConn args.last_state args.percent
        = Outcome.ok (some v) →
      compare v args.warn_conns args.crit_conns = none →
      main args env = ([Ev.conns], MainOut.crash) := by
  intro args env v h1 h2
  simp [main, h1, evalState, h2]

/-- Witness for c6_amended: metadata max_connections 90, a sampled value
of 40 (so v = 50) and the malformed warning threshold "abc". -/
theorem c6_witness :
    main ⟨"0:100", "0:100", "abc", "0:100", "0:100", "0:100", false, false⟩
      ⟨Except.ok ⟨90, 10⟩, fun _ => Except.ok [40], fun _ => Except.ok [40],
        fun _ => Except.ok [40]⟩
      = ([Ev.conns], MainOut.crash) :=
  c6_amended _ _ 50
    (by simp [unused_connections, get_current_value, get_statistics]; norm_num)
    (by decide)

/-- C7: compare checks the critical range first: a value failing critical
containment yields STATE_CRIT regardless of the warning range (in
particular a value failing both is CRITICAL, never WARNING); a value
passing critical but failing warning yields STATE_WARN; passing both
yields STATE_OK. -/
theorem c7_severity :
    ∀ (v : ℚ) (warn crit : String),
      (compare_range v crit = some false → compare v warn crit = some STATE_CRIT)
      ∧ (compare_range v crit = some true → compare_range v warn = some false →
          compare v warn crit = some STATE_WARN)
      ∧ (compare_range v crit = some true → compare_range v warn = some true →
          compare v warn crit = some STATE_OK) := by
  intro v warn crit
  refine ⟨fun hc => ?_, fun hc hw => ?_, fun hc hw => ?_⟩
  · simp [compare, hc]
  · simp [compare, hc, hw]
  · simp [compare, hc, hw]

/-- Witness for c7_severity: 50 fails both "0:10" (warning) and "0:20"
(critical) containment and is classified STATE_CRIT. -/
theorem c7_witness : compare 50 "0:10" "0:20" = some STATE_CRIT :=
  (c7_severity 50 "0:10" "0:20").1 (by decide)

/-- C8: the aggregated overall state equals the most severe state present
under CRITICAL over WARNING over UNKNOWN over OK (with OK for none
alerting), aggregation is invariant under permutation of the state
sequence, and the summary pieces list the metrics in evaluation order. -/
theorem c8_aggregate :
    (∀ states : List Item, finalState states = mostSevere (states.map Item.state))
    ∧ (∀ s t : List Item, s.Perm t → finalState s = finalState t)
    ∧ (∀ (pre suf : List Item) (x : Item),
        summaryItems (pre ++ x :: suf) = summaryItems pre ++ itemText x :: summaryItems suf) := by
  refine ⟨fun states => ?_, fun s t h => ?_, fun pre suf x => ?_⟩
  · rw [finalState_any, mostSevere_eq]
    simp [List.any_map, Function.comp]
  · rw [finalState_any, finalState_any, perm_any h, perm_any h, perm_any h]
  · simp [summaryItems]

/-- Witness for c8_aggregate: swapping a WARNING item and a CRITICAL item
leaves the aggregate unchanged. -/
theorem c8_witness :
    finalState [⟨"m1", STATE_WARN, some 1, ""⟩, ⟨"m2", STATE_CRIT, some 2, ""⟩]
      = finalState [⟨"m2", STATE_CRIT, some 2, ""⟩, ⟨"m1", STATE_WARN, some 1, ""⟩] :=
  c8_aggregate.2.1 _ _
    (List.Perm.swap (⟨"m2", STATE_CRIT, some 2, ""⟩ : Item)
      ⟨"m1", STATE_WARN, some 1, ""⟩ [])

/-- C9 counterexample: a transport error of the metadata collaborator
(DbInstance.__init__ is not wrapped in try/except) terminates the check
as an uncaught exception with a traceback, not with an UNKNOWN exit and
a diagnostic as the claim states for every collaborator failure. -/
theorem c9_counter :
    unused_connections (Except.error "AccessDenied") (fun _ => Except.ok [])
      false false = Outcome.crash := rfl

/-- C9 amended: a transport failure of the METRICS collaborator
terminates the check immediately with UNKNOWN and the diagnostic line
"UNKNOWN - err", without retrying the failed call (the source is never
queried at any later offset); a transport failure of the METADATA
collaborator also terminates the check immediately and without retry,
but as an uncaught exception rather than an UNKNOWN exit. -/
theorem c9_amended :
    (∀ (src : MetricSource) (ls : Bool) (msg : String), src 0 = Except.error msg →
      get_current_value src ls = Outcome.exitUnknown ("UNKNOWN - " ++ msg))
    ∧ (∀ (e : String) (src : MetricSource) (ls p : Bool),
      unused_connections (Except.error e) src ls p = Outcome.crash)
    ∧ (∀ (e : String) (src : MetricSource) (ls p : Bool),
      free_storage (Except.error e) src ls p = Outcome.crash) := by
  refine ⟨fun src ls msg h => ?_, fun e src ls p => rfl, fun e src ls p => rfl⟩
  simp [get_current_value, get_statistics, h]

/-- Witness for c9_amended: a source erroring at offset 0 exits UNKNOWN
with the printed diagnostic. -/
theorem c9_witness :
    get_current_value (fun _ => Except.error "Throttling") true
      = Outcome.exitUnknown ("UNKNOWN - " ++ "Throttling") :=
  c9_amended.1 (fun _ => Except.error "Throttling") true "Throttling" rfl

/-- C10: a suffixed colon-free input makes expand_unit return a Python
int, never a str (a colon input always yields a str), and the containment
test is undefined on an int threshold: its first step, window[0], raises
TypeError. -/
theorem c10_types :
    (∀ (s : String) (r : PyVal), ':' ∉ s.data →
      (List.isSuffixOf ['K'] s.data || List.isSuffixOf ['K', 'i'] s.data
        || List.isSuffixOf ['M'] s.data || List.isSuffixOf ['M', 'i'] s.data
        || List.isSuffixOf ['G'] s.data || List.isSuffixOf ['G', 'i'] s.data) = true →
      expand_unit s = some r → ∃ n : ℤ, r = PyVal.num n)
    ∧ (∀ (s : String) (r : PyVal), ':' ∈ s.data →
      expand_unit s = some r → ∃ t : String, r = PyVal.str t)
    ∧ (∀ (v : ℚ) (n : ℤ), compare_rangeDyn v (PyVal.num n) = none) := by
  refine ⟨fun s r hc hsuf heq => ?_, fun s r hc heq => ?_, fun v n => rfl⟩
  · rw [expand_unit, dif_neg hc] at heq
    by_cases k1 : List.isSuffixOf ['K'] s.data
    · rw [if_pos k1] at heq
      exact pyvalNumMap 1000 _ _ heq
    · rw [if_neg k1] at heq
      by_cases k2 : List.isSuffixOf ['K', 'i'] s.data
      · rw [if_pos k2] at heq
        exact pyvalNumMap 1024 _ _ heq
      · rw [if_neg k2] at heq
        by_cases k3 : List.isSuffixOf ['M'] s.data
        · rw [if_pos k3] at heq
          exact pyvalNumMap 1000000 _ _ heq
        · rw [if_neg k3] at heq
          by_cases k4 : List.isSuffixOf ['M', 'i'] s.data
          · rw [if_pos k4] at heq
            exact pyvalNumMap 1048576 _ _ heq
          · rw [if_neg k4] at heq
            by_cases k5 : List.isSuffixOf ['G'] s.data
            · rw [if_pos k5] at heq
              exact pyvalNumMap 1000000000 _ _ heq
            · rw [if_neg k5] at heq
              by_cases k6 : List.isSuffixOf ['G', 'i'] s.data
              · rw [if_pos k6] at heq
                exact pyvalNumMap 1073741824 _ _ heq
              · simp [k1, k2, k3, k4, k5, k6] at hsuf
  · rw [expand_unit_colon s hc] at heq
    cases hs : seqOption ((pySplit ':' s.data).map (fun p => expand_unit (String.mk p))) with
    | none => rw [hs] at heq; simp at heq
    | some parts =>
      rw [hs] at heq
      simp only [Option.some.injEq] at heq
      exact ⟨String.intercalate ":" (parts.map pyStr), heq.symm⟩

/-- Witness for c10_types: "8Gi" carries a suffix and no colon, and its
expansion is indeed a Python int. -/
theorem c10_witness : ∃ n : ℤ, PyVal.num 8589934592 = PyVal.num n :=
  c10_types.1 "8Gi" (PyVal.num 8589934592) (by decide) (by decide)
    (by simp +decide [expand_unit, pyInt, allDigits, digitsVal])

end RDS
